import Mathlib

/-!
Verification development for the dimension-reducer microservice
(`py-services/dimension-reducer/app.py`).

The service is shallowly embedded: Python floats carried by requests are
modelled by `FVal` (a rational together with the non-finite IEEE values, so
that validation behaviour on NaN/Inf inputs can be stated), integers by `ℤ`,
numeric computation inside the engines by `ℚ`, and the 4×4 homogeneous matrix
utilities by `ℝ` (the rotation builder uses `Real.cos`, `Real.sin`,
`Real.sqrt`). HTTP error outcomes are modelled by `Except` values whose error
kinds carry the status code via `statusOf`.
-/

/-- A Python float as it appears in a request body: either a finite value
(modelled exactly by a rational) or one of the non-finite IEEE values.
`numpy.array(..., dtype=float32)` accepts all of these, so validation in the
service never distinguishes them. -/
inductive FVal where
  | fin (q : ℚ)
  | nan
  | pinf
  | ninf
deriving DecidableEq, Repr

/-- The `method` literal of `DimensionReductionRequest` (app.py line 48). -/
inductive Method where
  | umap_learning
  | linear_transformation
  | umap_transform
deriving DecidableEq, Repr

/-- The fields of `DimensionReductionRequest` (app.py lines 46–58) that the
validation and dispatch logic reads.  Pydantic defaults are reproduced. -/
structure ReduceRequest where
  vectors : List (List FVal)
  method : Method := .umap_learning
  target_dimensions : ℤ := 3
  n_neighbors : Option ℤ := some 15
  min_dist : Option ℚ := some (4/5)
  random_state : Option ℤ := some 42
  spread : Option ℚ := some 3
  fitted_umap_model : Option (List ℕ) := none
deriving DecidableEq, Repr

/-- Error kinds raised by the `/reduce` handler and the learning engine.
`emptyInput` = "No vectors provided", `notEnoughSamples` = "At least 2 vectors
required for UMAP learning", `shapeInvalid` = "Invalid vector format" /
non-2-D input, `disabledMethod` = "Linear transformation is disabled",
`libraryUnavailable` = the 503s of lines 204–207, `internalError` = the
blanket 500 of lines 262–264. -/
inductive ReduceError where
  | emptyInput
  | notEnoughSamples
  | shapeInvalid
  | disabledMethod
  | libraryUnavailable
  | internalError
deriving DecidableEq, Repr

/-- HTTP status code attached to each error kind (app.py: `HTTPException`
constructors). -/
def statusOf : ReduceError → ℕ
  | .emptyInput => 400
  | .notEnoughSamples => 400
  | .shapeInvalid => 400
  | .disabledMethod => 400
  | .libraryUnavailable => 503
  | .internalError => 500

/-- `np.array(request.vectors, dtype=np.float32)` succeeds exactly when the
rows all have the same length (a ragged nested list raises `ValueError`,
surfaced as the 400 of app.py line 130).  For a rectangular `List (List f)`
the resulting array always has `ndim = 2`, so the `ndim != 2` check of line
132 is unreachable and is not modelled separately. -/
def isRect (vs : List (List FVal)) : Bool :=
  vs.all (fun r => r.length == (vs.headD []).length)

/-- Python truthy-or: `x or d` yields `d` when `x` is `None` or `0`
(app.py lines 211 `request.n_neighbors or 15` and 219
`request.random_state or 42`). -/
def pyOr (x : Option ℤ) (d : ℤ) : ℤ :=
  match x with
  | none => d
  | some r => if r = 0 then d else r

/-- The dispatcher-side parameter adaptation of app.py lines 139–142:
`if request.method == "umap_learning" and request.n_neighbors:` and then
`if request.n_neighbors >= n_samples: request.n_neighbors = max(2, n_samples - 1)`. -/
def adjustNNeighbors (nn : Option ℤ) (m : Method) (n : ℕ) : Option ℤ :=
  match nn with
  | none => none
  | some r =>
      if m = .umap_learning ∧ r ≠ 0 ∧ (n : ℤ) ≤ r then some (max 2 ((n : ℤ) - 1))
      else some r

/-- The learning-engine n_neighbors derivation of app.py lines 211–212:
`n_neighbors = min(request.n_neighbors or 15, n_samples - 1)` followed by
`n_neighbors = max(2, n_neighbors)`. -/
def engineNNeighbors (nn : Option ℤ) (n : ℕ) : ℤ :=
  max 2 (min (pyOr nn 15) ((n : ℤ) - 1))

/-- The n_neighbors actually used to fit the reducer on a `umap_learning`
request: the engine derivation applied to the dispatcher-adjusted request. -/
def effectiveNNeighbors (nn : Option ℤ) (n : ℕ) : ℤ :=
  engineNNeighbors (adjustNNeighbors nn .umap_learning n) n

/-- The `umap_params` dictionary of app.py lines 215–221, which is both passed
to `umap.UMAP(...)` and echoed as `umap_parameters` in the response. -/
structure UmapParams where
  n_neighbors : ℤ
  min_dist : ℚ
  spread : ℚ
  random_state : ℤ
  metric : String
deriving DecidableEq, Repr

/-- Builds the `umap_params` record from the (dispatcher-adjusted) request
fields and the sample count (app.py lines 210–221). -/
def mkUmapParams (nn : Option ℤ) (minDist spread : Option ℚ)
    (randomState : Option ℤ) (n : ℕ) : UmapParams :=
  { n_neighbors := engineNNeighbors nn n
  , min_dist := minDist.getD (4/5)
  , spread := spread.getD 3
  , random_state := pyOr randomState 42
  , metric := "cosine" }

/-- Where the dispatcher routes a request that passed validation.  The
`umapLearning` target carries the (possibly adjusted) `n_neighbors` that the
engine will receive.  `linear_transformation` has no target: it is rejected
before routing. -/
inductive Routed where
  | umapLearning (adjusted_nn : Option ℤ)
  | umapTransform
deriving DecidableEq, Repr

/-- The validation and routing logic of `reduce_dimensions`
(app.py lines 117–157), up to but not including the engine bodies:
empty-input check, the learning-only minimum sample count, numpy conversion
(rectangularity), the n_neighbors adaptation, the redundant second sample
check of lines 145–146, and the method dispatch in which
`linear_transformation` raises the disabled-method 400 (lines 151–153). -/
def reduceRoute (req : ReduceRequest) : Except ReduceError Routed :=
  if req.vectors.isEmpty then .error .emptyInput
  else if req.method = .umap_learning ∧ req.vectors.length < 2 then .error .notEnoughSamples
  else if isRect req.vectors = false then .error .shapeInvalid
  else
    let n := req.vectors.length
    let nn := adjustNNeighbors req.n_neighbors req.method n
    if req.method = .umap_learning ∧ n < 2 then .error .notEnoughSamples
    else
      match req.method with
      | .umap_learning => .ok (.umapLearning nn)
      | .linear_transformation => .error .disabledMethod
      | .umap_transform => .ok .umapTransform

/-- `np.eye(d, k)`: the d×k truncated identity matrix — ones on the main
diagonal, zeros elsewhere (the Ridge fallback of app.py line 409). -/
def npEye (d k : ℕ) : List (List ℚ) :=
  (List.range d).map (fun i => (List.range k).map (fun j => if i = j then (1:ℚ) else 0))

/-- `_create_ridge_transformation_matrix` (app.py lines 374–409).  The call
into scikit-learn's `Ridge` is external; its outcome is supplied as an oracle:
`some W` when `ridge.fit`/`ridge.coef_.T` succeed and produce `W`, `none` when
any step raises.  On `none` the `except` branch returns
`np.eye(embeddings.shape[1], coordinates.shape[1])`. -/
def createRidgeTransformationMatrix (ridgeOutcome : Option (List (List ℚ)))
    (embeddings coordinates : List (List ℚ)) : List (List ℚ) :=
  match ridgeOutcome with
  | some w => w
  | none => npEye (embeddings.headD []).length (coordinates.headD []).length

/-- The learning-engine output assembled by `_reduce_with_umap_learning`
(app.py lines 244–260): coordinates, the Ridge (or fallback) matrix, the
echoed parameters and the serialized-model size. -/
structure LearnOutput where
  coordinates : List (List ℚ)
  transformation_matrix : List (List ℚ)
  umap_params : UmapParams
  model_size_bytes : ℕ
deriving DecidableEq, Repr

/-- `_reduce_with_umap_learning` (app.py lines 195–264).  Library
availability flags are process-wide globals; the UMAP fit and the serializer
are external calls whose outcomes are supplied as oracles (`none` = the call
raised).  Note that the 503 raised for a missing serializer at line 242 sits
inside the `try` of lines 209–260 and is swallowed by the blanket
`except Exception` of line 262, so it actually surfaces as a 500
`internalError`. -/
def reduceWithUmapLearning (umapAvail sklearnAvail cloudpickleAvail : Bool)
    (umapOutcome : Option (List (List ℚ))) (ridgeOutcome : Option (List (List ℚ)))
    (modelBytes : List ℕ) (x : List (List ℚ))
    (nn : Option ℤ) (minDist spread : Option ℚ) (randomState : Option ℤ) :
    Except ReduceError LearnOutput :=
  if umapAvail = false then .error .libraryUnavailable
  else if sklearnAvail = false then .error .libraryUnavailable
  else
    match umapOutcome with
    | none => .error .internalError
    | some u =>
        if cloudpickleAvail = false then .error .internalError
        else .ok
          { coordinates := u
          , transformation_matrix := createRidgeTransformationMatrix ridgeOutcome x u
          , umap_params := mkUmapParams nn minDist spread randomState x.length
          , model_size_bytes := modelBytes.length }

/-- The `HealthResponse` pydantic model (app.py lines 75–79): a status
string, availability booleans for UMAP and scikit-learn, and a version
string.  There is no field for the serializer (cloudpickle). -/
structure HealthResponse where
  status : String
  umap_available : Bool
  sklearn_available : Bool
  version : String
deriving DecidableEq, Repr

/-- `health_check` (app.py lines 101–108), as a function of the three
process-wide availability globals `UMAP_AVAILABLE`, `SKLEARN_AVAILABLE`
and `CLOUDPICKLE_AVAILABLE`.  The handler reads only the first two. -/
def healthCheck (umapAvail sklearnAvail cloudpickleAvail : Bool) : HealthResponse :=
  { status := "healthy"
  , umap_available := umapAvail
  , sklearn_available := sklearnAvail
  , version := "1.0.0" }

/-- Minimum of a list of rationals, `np.min` style (meaningful on nonempty
lists; the `[]` case is an arbitrary total-function default). -/
def listMin : List ℚ → ℚ
  | [] => 0
  | x :: xs => xs.foldl min x

/-- Maximum of a list of rationals, `np.max` style. -/
def listMax : List ℚ → ℚ
  | [] => 0
  | x :: xs => xs.foldl max x

/-- Column `j` of a coordinate matrix (`axis=0` access). -/
def col (c : List (List ℚ)) (j : ℕ) : List ℚ :=
  c.map (fun r => r.getD j 0)

/-- `_normalize_coordinates` (app.py lines 357–371): per column `j`,
`min_vals`/`max_vals` via `np.min`/`np.max` over axis 0,
`ranges = np.where(ranges == 0, 1, ranges)`, then entrywise
`(2 * (x - min) / range - 1) * target_range`. -/
def normalizeCoordinates (c : List (List ℚ)) (targetRange : ℚ) : List (List ℚ) :=
  c.map (fun row =>
    (List.range row.length).map (fun j =>
      let mn := listMin (col c j)
      let mx := listMax (col c j)
      let rg := if mx - mn = 0 then 1 else mx - mn
      (2 * (row.getD j 0 - mn) / rg - 1) * targetRange))

/-- Dot product of two real vectors (`np.dot` on 1-D operands). -/
def dotL (u v : List ℝ) : ℝ := (List.zipWith (fun a b => a * b) u v).sum

/-- Matrix–vector product, rows as lists. -/
def matVec (m : List (List ℝ)) (v : List ℝ) : List ℝ := m.map (fun r => dotL r v)

/-- Entrywise sum of two matrices (`+` on numpy arrays of equal shape). -/
def matAdd (a b : List (List ℝ)) : List (List ℝ) :=
  List.zipWith (fun r s => List.zipWith (fun x y => x + y) r s) a b

/-- Scalar multiple of a matrix. -/
def smulMat (t : ℝ) (a : List (List ℝ)) : List (List ℝ) :=
  a.map (fun r => r.map (fun x => t * x))

/-- Matrix product (`np.dot` on 2-D operands). -/
def matMul (a b : List (List ℝ)) : List (List ℝ) :=
  a.map (fun r => (List.range (b.headD []).length).map (fun j => dotL r (b.map (fun s => s.getD j 0))))

/-- `np.eye(3)` over the reals. -/
def eye3 : List (List ℝ) := [[1,0,0],[0,1,0],[0,0,1]]

/-- Euclidean norm of a vector, `np.linalg.norm`. -/
noncomputable def vecNorm (v : List ℝ) : ℝ := Real.sqrt ((v.map (fun x => x ^ 2)).sum)

/-- `axis = axis / np.linalg.norm(axis)` (app.py lines 496–497). -/
noncomputable def normalizeAxis (a : List ℝ) : List ℝ :=
  a.map (fun x => x / vecNorm a)

/-- The skew-symmetric cross-product matrix `K` built from the normalized
axis (app.py lines 504–508). -/
def skewMat (a : List ℝ) : List (List ℝ) :=
  [ [0, -(a.getD 2 0), a.getD 1 0]
  , [a.getD 2 0, 0, -(a.getD 0 0)]
  , [-(a.getD 1 0), a.getD 0 0, 0] ]

/-- The 3×3 Rodrigues rotation block of `_create_rotation_matrix`
(app.py lines 493–511): `R = eye(3) + sin(θ)·K + (1 − cos(θ))·(K @ K)`
with `K` built from the normalized axis. -/
noncomputable def rotationMatrix3 (axis : List ℝ) (angle : ℝ) : List (List ℝ) :=
  let a := normalizeAxis axis
  let k := skewMat a
  matAdd (matAdd eye3 (smulMat (Real.sin angle) k)) (smulMat (1 - Real.cos angle) (matMul k k))

/-- `_create_rotation_matrix` (app.py lines 493–516): the Rodrigues block
embedded into `np.eye(4)` (rows padded with 0, last row untouched). -/
noncomputable def rotationMatrix4 (axis : List ℝ) (angle : ℝ) : List (List ℝ) :=
  ((rotationMatrix3 axis angle).map (fun r => r ++ [0])) ++ [[0,0,0,1]]

/-- `_generate_identity_matrix` (app.py lines 411–425): the 4×4 identity when
called with `dimensions = 3` (as the `/create-matrix` handler does), else a
3×3 identity. -/
def generateIdentityMatrix (dimensions : ℕ) : List (List ℝ) :=
  if dimensions = 3 then [[1,0,0,0],[0,1,0,0],[0,0,1,0],[0,0,0,1]]
  else [[1,0,0],[0,1,0],[0,0,1]]

/-- `_create_translation_matrix` (app.py lines 485–491): `np.eye(4)` with the
last column's first three entries set to the translation. -/
def translationMatrix (t : List ℝ) : List (List ℝ) :=
  [ [1,0,0,t.getD 0 0]
  , [0,1,0,t.getD 1 0]
  , [0,0,1,t.getD 2 0]
  , [0,0,0,1] ]

/-- `_create_scale_matrix` (app.py lines 518–524): `np.eye(4)` with the first
three diagonal entries set to the scale factors. -/
def scaleMatrix (s : List ℝ) : List (List ℝ) :=
  [ [s.getD 0 0,0,0,0]
  , [0,s.getD 1 0,0,0]
  , [0,0,s.getD 2 0,0]
  , [0,0,0,1] ]

/-- The `matrix_type` literal of `MatrixCreationRequest` (app.py line 429). -/
inductive MatrixType where
  | identity
  | translation
  | rotation
  | scale
deriving DecidableEq, Repr

/-- `MatrixCreationRequest` (app.py lines 427–433). -/
structure MatrixCreationRequest where
  matrix_type : MatrixType
  translation : Option (List ℝ) := none
  rotation_axis : Option (List ℝ) := none
  rotation_angle : Option ℝ := none
  scale_factors : Option (List ℝ) := none

/-- Error kinds of the `/create-matrix` handler, all surfaced as HTTP 400:
`shapeInvalid` for a missing/empty/wrong-length parameter vector,
`angleRequired` for "Rotation angle is required". -/
inductive MatrixError where
  | shapeInvalid
  | angleRequired
deriving DecidableEq, Repr

/-- `create_transformation_matrix` (app.py lines 441–483).  Python truthiness
makes `not request.x or len(request.x) != 3` reject `None`, `[]` and any
length ≠ 3; since `[]` has length ≠ 3, the condition is equivalent to
`None ∨ length ≠ 3`.  No check inspects the values of the parameter vectors
(in particular a zero-magnitude rotation axis of length 3 is accepted). -/
noncomputable def createTransformationMatrix (req : MatrixCreationRequest) :
    Except MatrixError (List (List ℝ)) :=
  match req.matrix_type with
  | .identity => .ok (generateIdentityMatrix 3)
  | .translation =>
      match req.translation with
      | none => .error .shapeInvalid
      | some t => if t.length ≠ 3 then .error .shapeInvalid else .ok (translationMatrix t)
  | .rotation =>
      match req.rotation_axis with
      | none => .error .shapeInvalid
      | some a =>
          if a.length ≠ 3 then .error .shapeInvalid
          else
            match req.rotation_angle with
            | none => .error .angleRequired
            | some θ => .ok (rotationMatrix4 a θ)
  | .scale =>
      match req.scale_factors with
      | none => .error .shapeInvalid
      | some s => if s.length ≠ 3 then .error .shapeInvalid else .ok (scaleMatrix s)

/-- Shared helper: a `umap_learning` request whose vectors form a rectangular
batch with at least two rows passes every validation check of
`reduce_dimensions` and is routed to the learning engine with the
dispatcher-adjusted `n_neighbors`. -/
theorem reduceRoute_learning_ok (req : ReduceRequest)
    (hm : req.method = .umap_learning) (hn : 2 ≤ req.vectors.length)
    (hrect : isRect req.vectors = true) :
    reduceRoute req =
      .ok (.umapLearning (adjustNNeighbors req.n_neighbors .umap_learning req.vectors.length)) := by
  have hne : req.vectors.isEmpty = false := by
    cases hv : req.vectors with
    | nil => rw [hv] at hn; simp at hn
    | cons a l => simp
  have hlt : ¬ req.vectors.length < 2 := by omega
  simp [reduceRoute, hne, hrect, hm, hlt]

/-- A concrete `linear_transformation` request with an empty vector list. -/
def reqLTEmpty : ReduceRequest := { vectors := [], method := .linear_transformation }

/-- A concrete `linear_transformation` request with well-shaped vectors. -/
def reqLTOk : ReduceRequest :=
  { vectors := [[.fin 1], [.fin 2]], method := .linear_transformation }

/-- C7 counterexample: with `method = linear_transformation` but an empty
vector list, the handler fails with the empty-input 400 of line 120, not with
the disabled-method error — so the claim that every such request fails with
`DisabledMethod` is false. -/
theorem lt_empty_not_disabledMethod :
    reduceRoute reqLTEmpty = .error .emptyInput ∧
      ReduceError.emptyInput ≠ ReduceError.disabledMethod := by
  exact ⟨rfl, by simp⟩

/-- C7 (amended): every `linear_transformation` request fails with some HTTP
400 error and never yields coordinates; the error is specifically
`DisabledMethod` whenever the vectors pass shape validation (nonempty and
rectangular). -/
theorem lt_always_400 (req : ReduceRequest)
    (hm : req.method = .linear_transformation) :
    ∃ e, reduceRoute req = .error e ∧ statusOf e = 400 ∧
      (req.vectors ≠ [] → isRect req.vectors = true → e = .disabledMethod) := by
  by_cases h1 : req.vectors.isEmpty
  · refine ⟨.emptyInput, by simp [reduceRoute, h1], rfl, fun hne _ => ?_⟩
    exact absurd (List.isEmpty_iff.mp h1) hne
  · by_cases h2 : isRect req.vectors
    · exact ⟨.disabledMethod, by simp [reduceRoute, h1, h2, hm], rfl, fun _ _ => rfl⟩
    · refine ⟨.shapeInvalid, ?_, rfl, fun _ hr => absurd hr (by simp [h2])⟩
      simp at h2
      simp [reduceRoute, h1, h2, hm]

/-- C7 witness: a shape-valid `linear_transformation` request is rejected
with a 400, and that error is the disabled-method one. -/
theorem lt_always_400_witness :
    ∃ e, reduceRoute reqLTOk = .error e ∧ statusOf e = 400 ∧
      (reqLTOk.vectors ≠ [] → isRect reqLTOk.vectors = true → e = .disabledMethod) :=
  lt_always_400 reqLTOk rfl

/-- C8 counterexample: the health response is identical whether or not
cloudpickle is available — the handler reads only the UMAP and sklearn flags
— so the claim that it reports an availability boolean for the
object-serialization library is false. -/
theorem health_ignores_cloudpickle :
    healthCheck true true false = healthCheck true true true ∧ false ≠ true := by
  exact ⟨rfl, by simp⟩

/-- C8 (amended): the health response always has status "healthy", echoes
exactly two availability booleans — UMAP and scikit-learn — and the fixed
version string; no serialization-availability field exists, so the response
does not depend on the cloudpickle flag. -/
theorem health_response_shape (u s c : Bool) :
    healthCheck u s c =
      { status := "healthy", umap_available := u, sklearn_available := s,
        version := "1.0.0" } := rfl

/-- A concrete `umap_learning` request containing a NaN entry. -/
def reqNaN : ReduceRequest := { vectors := [[.nan], [.fin 0]], method := .umap_learning }

/-- A concrete `umap_learning` request containing infinite entries. -/
def reqInf : ReduceRequest := { vectors := [[.pinf], [.ninf]], method := .umap_learning }

/-- C6 counterexample: a request whose vectors contain NaN passes every
validation check of `reduce_dimensions` and is routed to the learning engine
— no validation step inspects the values — so the claim that validation
rejects NaN/Inf inputs is false. -/
theorem nan_passes_validation :
    reduceRoute reqNaN = .ok (.umapLearning (some 2)) := rfl

/-- C6 (amended): input validation checks only emptiness, the learning
minimum sample count and rectangularity; any rectangular batch with at least
two rows — including one containing NaN or Inf entries — passes validation
and reaches the reduction engine. -/
theorem validation_ignores_values (req : ReduceRequest)
    (hm : req.method = .umap_learning) (hn : 2 ≤ req.vectors.length)
    (hrect : isRect req.vectors = true) :
    reduceRoute req =
      .ok (.umapLearning (adjustNNeighbors req.n_neighbors .umap_learning req.vectors.length)) :=
  reduceRoute_learning_ok req hm hn hrect

/-- C6 witness: a request with +∞ and −∞ entries passes validation. -/
theorem validation_ignores_values_witness :
    reduceRoute reqInf =
      .ok (.umapLearning (adjustNNeighbors reqInf.n_neighbors .umap_learning reqInf.vectors.length)) :=
  validation_ignores_values reqInf rfl (by decide) (by decide)

/-- A concrete rotation request whose axis is the zero vector. -/
def reqZeroAxis : MatrixCreationRequest :=
  { matrix_type := .rotation, rotation_axis := some [0, 0, 0], rotation_angle := some 0 }

/-- C5 counterexample: a rotation request with the zero-magnitude axis
`[0,0,0]` (length 3) is not rejected — the handler returns a matrix, because
the only axis check is on the length.  (In the running service the
normalization then divides by zero, yielding NaN entries, still with
status 200.) -/
theorem zero_axis_not_rejected :
    createTransformationMatrix reqZeroAxis = .ok (rotationMatrix4 [0, 0, 0] 0) := rfl

/-- C5 (amended): with an angle supplied, a rotation request fails with
`ShapeInvalid` exactly when the axis is missing or its length is not 3; a
length-3 axis — including a zero-magnitude one — is accepted and the
Rodrigues matrix is returned. -/
theorem rotation_shapeInvalid_iff (axisOpt : Option (List ℝ)) (θ : ℝ) :
    (createTransformationMatrix
        { matrix_type := .rotation, rotation_axis := axisOpt, rotation_angle := some θ } =
          .error .shapeInvalid
      ↔ ∀ a, axisOpt = some a → a.length ≠ 3) ∧
    (∀ a, axisOpt = some a → a.length = 3 →
      createTransformationMatrix
          { matrix_type := .rotation, rotation_axis := axisOpt, rotation_angle := some θ } =
        .ok (rotationMatrix4 a θ)) := by
  constructor
  · cases axisOpt with
    | none => simp [createTransformationMatrix]
    | some a =>
        by_cases h : a.length = 3
        · simp [createTransformationMatrix, h]
        · simp [createTransformationMatrix, h]
  · rintro a rfl h3
    simp [createTransformationMatrix, h3]

/-- C5 witness: an axis of length 2 is rejected with `ShapeInvalid`. -/
theorem rotation_shapeInvalid_iff_witness :
    createTransformationMatrix
        { matrix_type := .rotation, rotation_axis := some [(1:ℝ), 2],
          rotation_angle := some 0 } =
      .error .shapeInvalid :=
  (rotation_shapeInvalid_iff (some [(1:ℝ), 2]) 0).1.mpr
    (by rintro a ha; cases ha; simp)

/-- Equation lemma: `pyOr` on a present value. -/
theorem pyOr_some (r d : ℤ) : pyOr (some r) d = if r = 0 then d else r := rfl

/-- Equation lemma: the dispatcher adaptation on a present `n_neighbors`. -/
theorem adjustNNeighbors_some (r : ℤ) (m : Method) (n : ℕ) :
    adjustNNeighbors (some r) m n =
      if m = .umap_learning ∧ r ≠ 0 ∧ (n : ℤ) ≤ r then some (max 2 ((n : ℤ) - 1))
      else some r := rfl

/-- C1: a `umap_learning` request with a rectangular N×D batch, N ≥ 2, and a
supplied `n_neighbors ≥ N` passes validation (no 400), and the effective
`n_neighbors` handed to `umap.UMAP` — the value recorded in the returned
`umap_parameters` — equals `max 2 (N − 1)`. -/
theorem large_n_neighbors_clamped (req : ReduceRequest) (r : ℤ)
    (hm : req.method = .umap_learning) (hrect : isRect req.vectors = true)
    (hn : 2 ≤ req.vectors.length) (hnn : req.n_neighbors = some r)
    (hr : (req.vectors.length : ℤ) ≤ r) :
    reduceRoute req =
      .ok (.umapLearning (some (max 2 ((req.vectors.length : ℤ) - 1)))) ∧
    (mkUmapParams (some (max 2 ((req.vectors.length : ℤ) - 1))) req.min_dist req.spread
        req.random_state req.vectors.length).n_neighbors
      = max 2 ((req.vectors.length : ℤ) - 1) := by
  have hN : (2 : ℤ) ≤ (req.vectors.length : ℤ) := by exact_mod_cast hn
  constructor
  · rw [reduceRoute_learning_ok req hm hn hrect]
    have hadj : adjustNNeighbors req.n_neighbors .umap_learning req.vectors.length =
        some (max 2 ((req.vectors.length : ℤ) - 1)) := by
      rw [hnn, adjustNNeighbors_some]
      rw [if_pos ⟨rfl, by omega, hr⟩]
    rw [hadj]
  · simp only [mkUmapParams, engineNNeighbors, pyOr_some]
    rw [if_neg (by omega : ¬ max 2 ((req.vectors.length : ℤ) - 1) = 0)]
    omega

/-- A concrete learning request with three samples and `n_neighbors = 50`. -/
def reqClamp : ReduceRequest :=
  { vectors := [[.fin 1], [.fin 2], [.fin 3]], method := .umap_learning,
    n_neighbors := some 50 }

/-- C1 witness: with N = 3 and requested `n_neighbors = 50`, the request is
routed successfully and the effective value is `max 2 (3 − 1) = 2`. -/
theorem large_n_neighbors_clamped_witness :
    reduceRoute reqClamp =
      .ok (.umapLearning (some (max 2 ((reqClamp.vectors.length : ℤ) - 1)))) ∧
    (mkUmapParams (some (max 2 ((reqClamp.vectors.length : ℤ) - 1))) reqClamp.min_dist
        reqClamp.spread reqClamp.random_state reqClamp.vectors.length).n_neighbors
      = max 2 ((reqClamp.vectors.length : ℤ) - 1) :=
  large_n_neighbors_clamped reqClamp 50 rfl (by decide) (by decide) rfl (by decide)

/-- C4 counterexample: with N = 2 samples and requested `n_neighbors = 15`,
the effective value is 2, which exceeds N − 1 = 1 — so the claim that the
effective `n_neighbors` never exceeds N − 1 (including N = 2) is false. -/
theorem effective_nn_exceeds_at_two :
    effectiveNNeighbors (some 15) 2 = 2 ∧
      ¬ effectiveNNeighbors (some 15) 2 ≤ (2 : ℤ) - 1 := by decide

/-- C4 (amended): for N ≥ 2 the effective `n_neighbors` of a `umap_learning`
request equals `max 2 (min (requested or 15) (N − 1))` — the standard clamp
with the lower bound applied last — so it never exceeds `max 2 (N − 1)`; for
N ≥ 3 this is ≤ N − 1, but for N = 2 it is 2, which exceeds N − 1 = 1. -/
theorem effective_nn_formula (nn : Option ℤ) (n : ℕ) (hn : 2 ≤ n) :
    effectiveNNeighbors nn n = max 2 (min (pyOr nn 15) ((n : ℤ) - 1)) ∧
    effectiveNNeighbors nn n ≤ max 2 ((n : ℤ) - 1) := by
  have hN : (2 : ℤ) ≤ (n : ℤ) := by exact_mod_cast hn
  have hmain : effectiveNNeighbors nn n = max 2 (min (pyOr nn 15) ((n : ℤ) - 1)) := by
    rcases nn with _ | r
    · rfl
    · simp only [effectiveNNeighbors]
      rw [adjustNNeighbors_some]
      split_ifs with h
      · simp only [engineNNeighbors, pyOr_some]
        split_ifs <;> omega
      · rfl
  exact ⟨hmain, by rw [hmain]; omega⟩

/-- C4 witness: at N = 5 with requested `n_neighbors = 3`, the effective
value is the clamp `max 2 (min 3 4) = 3` and is ≤ `max 2 4`. -/
theorem effective_nn_formula_witness :
    effectiveNNeighbors (some 3) 5 = max 2 (min (pyOr (some 3) 15) (((5 : ℕ) : ℤ) - 1)) ∧
    effectiveNNeighbors (some 3) 5 ≤ max 2 (((5 : ℕ) : ℤ) - 1) :=
  effective_nn_formula (some 3) 5 (by norm_num)

/-- `np.eye(d, k)` has `d` rows. -/
theorem npEye_length (d k : ℕ) : (npEye d k).length = d := by simp [npEye]

/-- Every row of `np.eye(d, k)` has `k` entries. -/
theorem npEye_row_length (d k : ℕ) (row : List ℚ) (h : row ∈ npEye d k) :
    row.length = k := by
  simp [npEye] at h
  obtain ⟨i, hi, rfl⟩ := h
  simp

/-- `np.eye(d, k)` has ones on the main diagonal and zeros elsewhere. -/
theorem npEye_entry (d k i j : ℕ) (hi : i < d) (hj : j < k) :
    ((npEye d k).getD i []).getD j 0 = if i = j then 1 else 0 := by
  have h1 : (npEye d k).getD i [] =
      (List.range k).map (fun j => if i = j then (1:ℚ) else 0) := by
    rw [List.getD_eq_getElem?_getD]
    simp [npEye, List.getElem?_map, List.getElem?_range, hi]
  rw [h1, List.getD_eq_getElem?_getD]
  simp [List.getElem?_map, List.getElem?_range, hj]

/-- C2: when the Ridge regression step raises (oracle outcome `none`) on a
`umap_learning` request whose other steps go through, the request still
succeeds, and the returned `transformation_matrix` is the D×K truncated
identity — ones on the main diagonal, zeros elsewhere — for D the embedding
dimension (columns of X) and K the dimension of the UMAP output. -/
theorem ridge_failure_identity_fallback
    (x u : List (List ℚ)) (modelBytes : List ℕ)
    (nn : Option ℤ) (minDist spread : Option ℚ) (randomState : Option ℤ)
    (d k : ℕ) (hd : (x.headD []).length = d) (hk : (u.headD []).length = k) :
    ∃ out,
      reduceWithUmapLearning true true true (some u) none modelBytes x
          nn minDist spread randomState = .ok out ∧
      out.transformation_matrix = npEye d k ∧
      out.transformation_matrix.length = d ∧
      (∀ row ∈ out.transformation_matrix, row.length = k) ∧
      (∀ i j, i < d → j < k →
        ((out.transformation_matrix.getD i []).getD j 0) = if i = j then 1 else 0) := by
  have hW : createRidgeTransformationMatrix none x u = npEye d k := by
    rw [show createRidgeTransformationMatrix none x u
        = npEye (x.headD []).length (u.headD []).length from rfl, hd, hk]
  have hrun : reduceWithUmapLearning true true true (some u) none modelBytes x
      nn minDist spread randomState
      = .ok { coordinates := u
            , transformation_matrix := createRidgeTransformationMatrix none x u
            , umap_params := mkUmapParams nn minDist spread randomState x.length
            , model_size_bytes := modelBytes.length } := rfl
  rw [hW] at hrun
  exact ⟨_, hrun, rfl, npEye_length d k, npEye_row_length d k,
    fun i j hi hj => npEye_entry d k i j hi hj⟩

/-- C2 witness: with a 2×3 embedding batch and a 2×2 UMAP output, the Ridge
failure path succeeds and yields the 3×2 truncated identity. -/
theorem ridge_failure_identity_fallback_witness :
    ∃ out,
      reduceWithUmapLearning true true true (some [[0,0],[1,1]]) none [7,7]
          [[1,2,3],[4,5,6]] (some 15) (some (4/5)) (some 3) (some 42) = .ok out ∧
      out.transformation_matrix = npEye 3 2 ∧
      out.transformation_matrix.length = 3 ∧
      (∀ row ∈ out.transformation_matrix, row.length = 2) ∧
      (∀ i j, i < 3 → j < 2 →
        ((out.transformation_matrix.getD i []).getD j 0) = if i = j then 1 else 0) :=
  ridge_failure_identity_fallback [[1,2,3],[4,5,6]] [[0,0],[1,1]] [7,7]
    (some 15) (some (4/5)) (some 3) (some 42) 3 2 rfl rfl

/-- Folding `min` over a list never exceeds the accumulator. -/
theorem foldl_min_le_init (xs : List ℚ) (a : ℚ) : xs.foldl min a ≤ a := by
  induction xs generalizing a with
  | nil => exact le_refl a
  | cons x xs ih => exact le_trans (ih (min a x)) (min_le_left a x)

/-- Folding `min` over a list never exceeds any member. -/
theorem foldl_min_le_mem (xs : List ℚ) (a y : ℚ) (hy : y ∈ xs) : xs.foldl min a ≤ y := by
  induction xs generalizing a with
  | nil => cases hy
  | cons x xs ih =>
      rcases List.mem_cons.mp hy with rfl | hy'
      · exact le_trans (foldl_min_le_init xs (min a y)) (min_le_right a y)
      · exact ih (min a x) hy'

/-- `np.min` is a lower bound of the list. -/
theorem listMin_le (l : List ℚ) (y : ℚ) (hy : y ∈ l) : listMin l ≤ y := by
  cases l with
  | nil => cases hy
  | cons x xs =>
      rcases List.mem_cons.mp hy with rfl | hy'
      · exact foldl_min_le_init xs y
      · exact foldl_min_le_mem xs x y hy'

/-- Folding `max` over a list dominates the accumulator. -/
theorem init_le_foldl_max (xs : List ℚ) (a : ℚ) : a ≤ xs.foldl max a := by
  induction xs generalizing a with
  | nil => exact le_refl a
  | cons x xs ih => exact le_trans (le_max_left a x) (ih (max a x))

/-- Folding `max` over a list dominates any member. -/
theorem mem_le_foldl_max (xs : List ℚ) (a y : ℚ) (hy : y ∈ xs) : y ≤ xs.foldl max a := by
  induction xs generalizing a with
  | nil => cases hy
  | cons x xs ih =>
      rcases List.mem_cons.mp hy with rfl | hy'
      · exact le_trans (le_max_right a y) (init_le_foldl_max xs (max a y))
      · exact ih (max a x) hy'

/-- `np.max` is an upper bound of the list. -/
theorem le_listMax (l : List ℚ) (y : ℚ) (hy : y ∈ l) : y ≤ listMax l := by
  cases l with
  | nil => cases hy
  | cons x xs =>
      rcases List.mem_cons.mp hy with rfl | hy'
      · exact init_le_foldl_max xs y
      · exact mem_le_foldl_max xs x y hy'

/-- Entry formula for `_normalize_coordinates`: the (i, j) output entry is
`(2 * (x_ij − min_j) / range_j − 1) * target_range` with `range_j` replaced
by 1 when the column range is zero. -/
theorem normalize_entry (c : List (List ℚ)) (tr : ℚ) (i j : ℕ)
    (hi : i < c.length) (hj : j < (c.getD i []).length) :
    ((normalizeCoordinates c tr).getD i []).getD j 0 =
      (2 * ((c.getD i []).getD j 0 - listMin (col c j)) /
        (if listMax (col c j) - listMin (col c j) = 0 then 1
         else listMax (col c j) - listMin (col c j)) - 1) * tr := by
  have h1 : (normalizeCoordinates c tr).getD i [] =
      (List.range (c.getD i []).length).map (fun j =>
        (2 * ((c.getD i []).getD j 0 - listMin (col c j)) /
          (if listMax (col c j) - listMin (col c j) = 0 then 1
           else listMax (col c j) - listMin (col c j)) - 1) * tr) := by
    rw [List.getD_eq_getElem?_getD, normalizeCoordinates, List.getElem?_map,
      List.getElem?_eq_getElem hi]
    simp [List.getD_eq_getElem?_getD, List.getElem?_eq_getElem hi]
  rw [h1, List.getD_eq_getElem?_getD, List.getElem?_map, List.getElem?_range hj]
  simp

/-- C3 counterexample: on the 2×1 matrix whose single column is constant 5
(zero range) with target range 10, `_normalize_coordinates` outputs −10 in
every entry — the zero-range axis is not passed through unchanged. -/
theorem normalize_zero_range_not_unchanged :
    normalizeCoordinates [[5], [5]] 10 = [[-10], [-10]] ∧
      ([[-10], [-10]] : List (List ℚ)) ≠ [[5], [5]] := by
  constructor
  · norm_num [normalizeCoordinates, col, listMin, listMax, List.range_succ]
  · decide

/-- C3 (amended): `_normalize_coordinates` rescales each axis into
[−R, R] by per-axis min–max scaling, but an axis whose maximum equals its
minimum (zero range) is not passed through unchanged: every entry on such an
axis is mapped to the constant −R. -/
theorem normalize_bounds (c : List (List ℚ)) (tr : ℚ) (i j : ℕ)
    (hi : i < c.length) (hj : j < (c.getD i []).length) (htr : 0 ≤ tr) :
    (-tr ≤ ((normalizeCoordinates c tr).getD i []).getD j 0 ∧
      ((normalizeCoordinates c tr).getD i []).getD j 0 ≤ tr) ∧
    (listMax (col c j) = listMin (col c j) →
      ((normalizeCoordinates c tr).getD i []).getD j 0 = -tr) := by
  have hv : (c.getD i []).getD j 0 ∈ col c j := by
    have hrow : c.getD i [] ∈ c := by
      rw [List.getD_eq_getElem _ _ hi]
      exact List.getElem_mem hi
    exact List.mem_map_of_mem (fun r => r.getD j 0) hrow
  have hmn : listMin (col c j) ≤ (c.getD i []).getD j 0 := listMin_le _ _ hv
  have hmx : (c.getD i []).getD j 0 ≤ listMax (col c j) := le_listMax _ _ hv
  rw [normalize_entry c tr i j hi hj]
  set v := (c.getD i []).getD j 0 with hvdef
  set mn := listMin (col c j) with hmndef
  set mx := listMax (col c j) with hmxdef
  by_cases hz : mx - mn = 0
  · have hveq : v = mn := le_antisymm (by linarith) hmn
    rw [if_pos hz, hveq]
    constructor
    · constructor
      · simp
      · simp; linarith
    · intro _; simp
  · rw [if_neg hz]
    have hrg : 0 < mx - mn := lt_of_le_of_ne (by linarith) (Ne.symm hz)
    have ht0 : 0 ≤ 2 * (v - mn) / (mx - mn) :=
      div_nonneg (by linarith) (le_of_lt hrg)
    have ht2 : 2 * (v - mn) / (mx - mn) ≤ 2 := by
      rw [div_le_iff₀ hrg]
      linarith
    constructor
    · constructor
      · have : (-1 : ℚ) * tr ≤ (2 * (v - mn) / (mx - mn) - 1) * tr :=
          mul_le_mul_of_nonneg_right (by linarith) htr
        linarith
      · have : (2 * (v - mn) / (mx - mn) - 1) * tr ≤ 1 * tr :=
          mul_le_mul_of_nonneg_right (by linarith) htr
        linarith
    · intro habs
      exact absurd (by rw [habs]; ring) hz

/-- C3 witness: in the 2×1 matrix with column [1, 3] and target range 10, the
(0,0) output entry lies in [−10, 10] (here the column range is nonzero, so
the zero-range implication holds vacuously). -/
theorem normalize_bounds_witness :
    (-10 ≤ ((normalizeCoordinates [[1], [3]] 10).getD 0 []).getD 0 0 ∧
      ((normalizeCoordinates [[1], [3]] 10).getD 0 []).getD 0 0 ≤ 10) ∧
    (listMax (col [[1], [3]] 0) = listMin (col [[1], [3]] 0) →
      ((normalizeCoordinates [[1], [3]] 10).getD 0 []).getD 0 0 = -10) :=
  normalize_bounds [[1], [3]] 10 0 0 (by decide) (by decide) (by decide)

/-- C10: every matrix returned by a successful `/create-matrix` request — for
any of the four matrix types and any accepted parameters — is 4×4 and its
last row is (0, 0, 0, 1). -/
theorem create_matrix_homogeneous (req : MatrixCreationRequest) (m : List (List ℝ))
    (h : createTransformationMatrix req = .ok m) :
    m.length = 4 ∧ (∀ row ∈ m, row.length = 4) ∧ m.getLast? = some [0, 0, 0, 1] := by
  rcases req with ⟨mt, t?, a?, θ?, s?⟩
  cases mt with
  | identity =>
      have hm : m = generateIdentityMatrix 3 := by
        simpa [createTransformationMatrix] using h.symm
      subst hm
      exact ⟨rfl, by intro row hr; fin_cases hr <;> rfl, rfl⟩
  | translation =>
      cases t? with
      | none => simp [createTransformationMatrix] at h
      | some t =>
          by_cases hl : t.length = 3
          · have hm : m = translationMatrix t := by
              simpa [createTransformationMatrix, hl] using h.symm
            subst hm
            exact ⟨rfl, by intro row hr; fin_cases hr <;> rfl, rfl⟩
          · simp [createTransformationMatrix, hl] at h
  | rotation =>
      cases a? with
      | none => simp [createTransformationMatrix] at h
      | some a =>
          by_cases hl : a.length = 3
          · cases θ? with
            | none => simp [createTransformationMatrix, hl] at h
            | some θ =>
                have hm : m = rotationMatrix4 a θ := by
                  simpa [createTransformationMatrix, hl] using h.symm
                subst hm
                exact ⟨rfl, by intro row hr; fin_cases hr <;> rfl, rfl⟩
          · simp [createTransformationMatrix, hl] at h
  | scale =>
      cases s? with
      | none => simp [createTransformationMatrix] at h
      | some s =>
          by_cases hl : s.length = 3
          · have hm : m = scaleMatrix s := by
              simpa [createTransformationMatrix, hl] using h.symm
            subst hm
            exact ⟨rfl, by intro row hr; fin_cases hr <;> rfl, rfl⟩
          · simp [createTransformationMatrix, hl] at h

/-- C10 witness: the identity request succeeds, and the returned matrix is
4×4 with last row (0, 0, 0, 1). -/
theorem create_matrix_homogeneous_witness :
    (generateIdentityMatrix 3).length = 4 ∧
    (∀ row ∈ generateIdentityMatrix 3, row.length = 4) ∧
    (generateIdentityMatrix 3).getLast? = some [0, 0, 0, 1] :=
  create_matrix_homogeneous { matrix_type := .identity } (generateIdentityMatrix 3) rfl

/-- The top-left 3×3 block of a matrix (`matrix[:3, :3]`). -/
def block3 (m : List (List ℝ)) : List (List ℝ) := (m.take 3).map (fun r => r.take 3)

/-- Normalizing an axis whose squared norm is 1 leaves it unchanged. -/
theorem normalizeAxis_unit (a0 a1 a2 : ℝ) (h : a0 ^ 2 + a1 ^ 2 + a2 ^ 2 = 1) :
    normalizeAxis [a0, a1, a2] = [a0, a1, a2] := by
  have hs : vecNorm [a0, a1, a2] = 1 := by
    have hsum : (List.map (fun x => x ^ 2) [a0, a1, a2]).sum = a0 ^ 2 + a1 ^ 2 + a2 ^ 2 := by
      simp; ring
    rw [vecNorm, hsum, h, Real.sqrt_one]
  simp [normalizeAxis, hs]

/-- C9: for a unit axis (a0, a1, a2), any angle θ and any vector v, the 3×3
rotation block of the matrix produced by the `rotation` branch of
`/create-matrix` (Rodrigues construction on the normalized axis) preserves
the Euclidean norm: ‖R·v‖ = ‖v‖ over exact real arithmetic. -/
theorem rotation_preserves_norm (a0 a1 a2 θ v0 v1 v2 : ℝ)
    (h : a0 ^ 2 + a1 ^ 2 + a2 ^ 2 = 1) :
    vecNorm (matVec (block3 (rotationMatrix4 [a0, a1, a2] θ)) [v0, v1, v2]) =
      vecNorm [v0, v1, v2] := by
  have hb : block3 (rotationMatrix4 [a0, a1, a2] θ) = rotationMatrix3 [a0, a1, a2] θ := rfl
  rw [hb]
  rw [show rotationMatrix3 [a0, a1, a2] θ
      = matAdd (matAdd eye3 (smulMat (Real.sin θ) (skewMat (normalizeAxis [a0, a1, a2]))))
          (smulMat (1 - Real.cos θ)
            (matMul (skewMat (normalizeAxis [a0, a1, a2])) (skewMat (normalizeAxis [a0, a1, a2]))))
      from rfl]
  rw [normalizeAxis_unit a0 a1 a2 h]
  have hsc : Real.sin θ ^ 2 + Real.cos θ ^ 2 = 1 := Real.sin_sq_add_cos_sq θ
  unfold vecNorm
  congr 1
  simp only [matVec, matAdd, smulMat, matMul, dotL, skewMat, eye3, List.map_cons, List.map_nil,
    List.zipWith_cons_cons, List.zipWith_nil_right, List.zipWith_nil_left, List.sum_cons,
    List.sum_nil, List.headD_cons, List.length_cons, List.length_nil, List.range_succ,
    List.range_zero, List.map_append, List.getD_cons_zero, List.getD_cons_succ, List.nil_append,
    List.cons_append]
  set s := Real.sin θ
  set c := Real.cos θ
  linear_combination ((v0 ^ 2 + v1 ^ 2 + v2 ^ 2) * (a0 ^ 2 + a1 ^ 2 + a2 ^ 2)
    - (a0 * v0 + a1 * v1 + a2 * v2) ^ 2) * ((1 - c) ^ 2 * h + hsc)

/-- C9 witness: the unit axis (0, 0, 1), angle π/3 and vector (1, 2, 2). -/
theorem rotation_preserves_norm_witness :
    vecNorm (matVec (block3 (rotationMatrix4 [0, 0, 1] (Real.pi / 3))) [1, 2, 2]) =
      vecNorm [1, 2, 2] :=
  rotation_preserves_norm 0 0 1 (Real.pi / 3) 1 2 2 (by norm_num)
